import Mathlib

/-!
Verification development for the investor/entrepreneur chatbot core
(`src/chatbot.py`).  The Python class `InvestorEntrepreneurChatbot` is shallowly
embedded: its two mutable dictionaries (`conversation_history`, `user_profiles`)
become association lists inside an explicit `Chatbot` state record that every
operation threads; `datetime.now()` timestamps are modelled by a monotone
counter (`clock`) and `uuid.uuid4()` by a counter-derived token, since only
freshness, never the concrete value, is observable in the code under study.
All definitions are executable and kernel-reducible.
-/

/-- One entry of a Python `dict`-shaped association list, looked up front to
back: the source stores string-keyed dictionaries everywhere. -/
def dict_get {α : Type} : List (String × α) → String → Option α
  | [], _ => none
  | kv :: rest, key => if kv.1 = key then some kv.2 else dict_get rest key

/-- `d[key] = v` on an association list: replace the first binding of `key`
in place, or append a fresh binding at the end, exactly the observable
behaviour of assignment into a Python `dict`. -/
def dict_set {α : Type} : List (String × α) → String → α → List (String × α)
  | [], key, v => [(key, v)]
  | kv :: rest, key, v =>
    if kv.1 = key then (key, v) :: rest else kv :: dict_set rest key v

/-- One history entry: `{'role': ..., 'message': ..., 'timestamp': ...}` as
appended by `process_message`; the ISO timestamp string is modelled by the
clock tick at which it was taken. -/
structure Turn where
  role : String
  message : String
  timestamp : Nat
deriving DecidableEq

/-- The mutable state of `InvestorEntrepreneurChatbot.__init__`:
`conversation_history` maps a conversation id to its list of turns and
`user_profiles` maps it to a profile dictionary (keys `"type"` and
`"last_intent"`).  `clock` feeds timestamps, `uuid_counter` feeds generated
conversation ids. -/
structure Chatbot where
  conversation_history : List (String × List Turn)
  user_profiles : List (String × List (String × String))
  clock : Nat
  uuid_counter : Nat
deriving DecidableEq

/-- The freshly constructed chatbot: both dictionaries empty. -/
def initial_chatbot : Chatbot :=
  { conversation_history := [], user_profiles := [], clock := 0, uuid_counter := 0 }

/-- `message.lower()` followed by the character-list view under which all
matching in the source happens (`in` tests and `re.search`). -/
def lower_chars (message : String) : List Char :=
  message.data.map Char.toLower

/-- Python's substring test `pat in s` on character lists. -/
def substr_in (pat : List Char) : List Char → Bool
  | [] => pat.isEmpty
  | c :: rest => pat.isPrefixOf (c :: rest) || substr_in pat rest

/-- `keyword in message_lower` as used by the role scorer. -/
def contains_kw (message_lower : List Char) (keyword : String) : Bool :=
  substr_in keyword.data message_lower

/-- `investor_keywords` of `identify_user_type`. -/
def investor_keywords : List String :=
  ["invest", "portfolio", "capital", "funding round", "due diligence", "returns"]

/-- `entrepreneur_keywords` of `identify_user_type`. -/
def entrepreneur_keywords : List String :=
  ["startup", "raise money", "pitch", "business idea", "need funding", "scale"]

/-- `identify_user_type` (chatbot.py lines 89-107): if any profile entry
exists for the conversation id the stored `'type'` value (default
`'unknown'`) is returned at once; only otherwise is the message lower-cased
and scored against the two keyword lists, ties falling to `'unknown'`. -/
def identify_user_type (bot : Chatbot) (message : String) (conversation_id : String) : String :=
  match dict_get bot.user_profiles conversation_id with
  | some profile => (dict_get profile "type").getD "unknown"
  | none =>
    let message_lower := lower_chars message
    let investor_score := investor_keywords.countP (fun kw => contains_kw message_lower kw)
    let entrepreneur_score := entrepreneur_keywords.countP (fun kw => contains_kw message_lower kw)
    if investor_score > entrepreneur_score then "investor"
    else if entrepreneur_score > investor_score then "entrepreneur"
    else "unknown"

/-!
Every regex in `intent_patterns` is a list of literal fragments joined by
`.*` (no other metacharacter occurs), so a pattern is embedded as its list of
literal segments.  `re.search(a.*b, s)` holds iff `a` occurs somewhere in `s`
and `b` occurs after it with no newline in the gap (Python's `.` does not
match `'\n'`).  The searcher below tries every start position for the first
segment; for the later segments taking the earliest occurrence inside the
current newline-free window is complete, because an earlier choice only
enlarges the window left for the segments that follow.
-/

/-- Earliest occurrence of a literal segment reachable from the current
position without crossing a newline (the region `.*` may consume); returns
the suffix just after the occurrence. -/
def find_in_line (pat : List Char) : List Char → Option (List Char)
  | [] => if pat.isEmpty then some [] else none
  | c :: rest =>
    if pat.isPrefixOf (c :: rest) then some ((c :: rest).drop pat.length)
    else if c = '\n' then none
    else find_in_line pat rest

/-- Match the remaining `.*`-separated segments, each gap newline-free. -/
def chain_match : List (List Char) → List Char → Bool
  | [], _ => true
  | pat :: pats, s =>
    match find_in_line pat s with
    | some rest => chain_match pats rest
    | none => false

/-- Try the first segment at every position of the text (the scan of
`re.search` itself is unrestricted), then chain the rest. -/
def re_search_aux (pat : List Char) (pats : List (List Char)) : List Char → Bool
  | [] => pat.isEmpty && chain_match pats []
  | c :: rest =>
    (pat.isPrefixOf (c :: rest) && chain_match pats ((c :: rest).drop pat.length))
    || re_search_aux pat pats rest

/-- `re.search(pattern, text)` truthiness for the literal-`.*`-literal
pattern class of `intent_patterns`. -/
def re_search (segments : List String) (text : List Char) : Bool :=
  match segments.map String.data with
  | [] => true
  | pat :: pats => re_search_aux pat pats text

/-- `self.intent_patterns` (chatbot.py lines 24-68), in registration order;
each regex literal is split at its `.*` separators. -/
def intent_patterns : List (String × List (String × List (List String))) :=
  [("investor",
     [("seeking_startups",
        [["looking for", "startup"], ["investment", "opportunit"], ["seed", "round"],
         ["series", "funding"], ["startup", "invest"], ["due", "diligence"],
         ["invest", "in", "startup"], ["startup", "investment"], ["find", "startup"]]),
      ("portfolio_inquiry",
        [["portfolio", "track"], ["investment", "performance"], ["return", "investment"],
         ["portfolio", "management"]]),
      ("market_analysis",
        [["market", "trend"], ["industry", "analysis"], ["sector", "growth"],
         ["market", "size"], ["competition", "analysis"]])]),
   ("entrepreneur",
     [("seeking_funding",
        [["need", "funding"], ["raise", "capital"], ["looking", "investor"],
         ["seed", "money"], ["venture", "capital"], ["angel", "investor"],
         ["seeking", "funding"], ["need", "investment"]]),
      ("pitch_help",
        [["pitch", "deck"], ["business", "plan"], ["present", "idea"],
         ["pitch", "help"], ["investor", "presentation"]]),
      ("business_advice",
        [["business", "advice"], ["startup", "help"], ["scale", "business"],
         ["growth", "strategy"], ["business", "model"]])]),
   ("general",
     [("platform_info",
        [["how", "platform", "work"], ["what", "this", "platform"],
         ["platform", "feature"], ["how", "use", "platform"]]),
      ("registration",
        [["sign", "up"], ["register"], ["create", "account"], ["join", "platform"]]),
      ("meeting_scheduling",
        [["schedule", "meeting"], ["book", "appointment"], ["arrange", "call"],
         ["set", "meeting"]])])]

/-- The inner double loop of `identify_intent`: walk intents in registration
order and return the first whose pattern list has a match. -/
def find_intent : List (String × List (List String)) → List Char → Option String
  | [], _ => none
  | group :: rest, message_lower =>
    if group.2.any (fun pat => re_search pat message_lower) then some group.1
    else find_intent rest message_lower

/-- `identify_intent` (chatbot.py lines 109-126): user-type-specific patterns
first, then the `'general'` group, then the sentinel `'general_inquiry'`. -/
def identify_intent (message : String) (user_type : String) : String :=
  let message_lower := lower_chars message
  let role_hit :=
    match dict_get intent_patterns user_type with
    | some groups => find_intent groups message_lower
    | none => none
  match role_hit with
  | some intent => intent
  | none =>
    match find_intent ((dict_get intent_patterns "general").getD []) message_lower with
    | some intent => intent
    | none => "general_inquiry"

/-!
Response engine.  Each `_get_..._response` method of the source returns one
long static string and ignores both of its arguments; the bodies are
abbreviated here to their title lines, which keeps every generator a distinct
constant — no claim depends on the body text, only on its independence from
the message and conversation id.
-/

/-- Body of `_get_startup_opportunities_response`, abbreviated to its title. -/
def startup_opportunities_text : String := "Startup Investment Opportunities"

/-- Body of `_get_funding_opportunities_response`, abbreviated to its title. -/
def funding_opportunities_text : String := "Funding Opportunities for Entrepreneurs"

/-- Body of `_get_pitch_help_response`, abbreviated to its title. -/
def pitch_help_text : String := "Pitch Deck and Presentation Help"

/-- Body of `_get_platform_info_response`, abbreviated to its title. -/
def platform_info_text : String := "Welcome to the Investor-Entrepreneur Platform!"

/-- Body of `_get_registration_response`, abbreviated to its title. -/
def registration_body_text : String := "Platform Registration"

/-- Body of `_get_meeting_scheduling_response`, abbreviated to its title. -/
def meeting_scheduling_text : String := "Meeting and Call Scheduling"

/-- Body of `_get_portfolio_response`, abbreviated to its title. -/
def portfolio_text : String := "Portfolio Management and Tracking"

/-- Body of `_get_market_analysis_response`, abbreviated to its title. -/
def market_analysis_text : String := "Market Analysis and Trends"

/-- Body of `_get_business_advice_response`, abbreviated to its title. -/
def business_advice_text : String := "Business Advice and Strategy"

/-- `_get_startup_opportunities_response(message, conversation_id)`. -/
def get_startup_opportunities_response (_message _conversation_id : String) : String :=
  startup_opportunities_text

/-- `_get_funding_opportunities_response(message, conversation_id)`. -/
def get_funding_opportunities_response (_message _conversation_id : String) : String :=
  funding_opportunities_text

/-- `_get_pitch_help_response(message, conversation_id)`. -/
def get_pitch_help_response (_message _conversation_id : String) : String :=
  pitch_help_text

/-- `_get_platform_info_response(message, conversation_id)`. -/
def get_platform_info_response (_message _conversation_id : String) : String :=
  platform_info_text

/-- `_get_registration_response(message, conversation_id)`. -/
def get_registration_response (_message _conversation_id : String) : String :=
  registration_body_text

/-- `_get_meeting_scheduling_response(message, conversation_id)`. -/
def get_meeting_scheduling_response (_message _conversation_id : String) : String :=
  meeting_scheduling_text

/-- `_get_portfolio_response(message, conversation_id)`. -/
def get_portfolio_response (_message _conversation_id : String) : String :=
  portfolio_text

/-- `_get_market_analysis_response(message, conversation_id)`. -/
def get_market_analysis_response (_message _conversation_id : String) : String :=
  market_analysis_text

/-- `_get_business_advice_response(message, conversation_id)`. -/
def get_business_advice_response (_message _conversation_id : String) : String :=
  business_advice_text

/-- The `user_greeting` dictionary of `_get_default_response`. -/
def default_greetings : List (String × String) :=
  [("investor", "As an investor"), ("entrepreneur", "As an entrepreneur"),
   ("unknown", "Welcome! Whether you\x27re an investor or entrepreneur")]

/-- Tail of the `_get_default_response` f-string (abbreviated to its first
sentence; the menu that follows is static text). -/
def default_menu_text : String := ", I\x27m here to help you succeed on our platform!"

/-- `_get_default_response(user_type, message)`: role-specific greeting
(default `"Hello"`) spliced in front of the static menu; `message` unused. -/
def get_default_response (user_type : String) (_message : String) : String :=
  ((dict_get default_greetings user_type).getD "Hello") ++ default_menu_text

/-- `self.responses` (chatbot.py lines 71-87): role -> intent -> bound
response method. -/
def responses : List (String × List (String × (String → String → String))) :=
  [("investor",
     [("seeking_startups", get_startup_opportunities_response),
      ("portfolio_inquiry", get_portfolio_response),
      ("market_analysis", get_market_analysis_response)]),
   ("entrepreneur",
     [("seeking_funding", get_funding_opportunities_response),
      ("pitch_help", get_pitch_help_response),
      ("business_advice", get_business_advice_response)]),
   ("general",
     [("platform_info", get_platform_info_response),
      ("registration", get_registration_response),
      ("meeting_scheduling", get_meeting_scheduling_response)])]

/-- The test `user_type in self.responses and intent in self.responses[user_type]`
together with the subsequent indexing. -/
def responses_lookup (user_type intent : String) : Option (String → String → String) :=
  (dict_get responses user_type).bind (fun group => dict_get group intent)

/-- `generate_response` (chatbot.py lines 172-179): role-specific generator
first, then the `'general'` row, then `_get_default_response`. -/
def generate_response (user_type intent message conversation_id : String) : String :=
  match responses_lookup user_type intent with
  | some handler => handler message conversation_id
  | none =>
    match responses_lookup "general" intent with
    | some handler => handler message conversation_id
    | none => get_default_response user_type message

/-- The `suggestions` dictionary of `get_suggestions`. -/
def suggestions_table : List (String × List String) :=
  [("investor",
     ["Show me startup opportunities in tech",
      "What\x27s the average ROI in Series A rounds?",
      "Schedule a meeting with promising startups",
      "Analyze market trends in fintech"]),
   ("entrepreneur",
     ["Help me prepare my pitch deck",
      "Find investors interested in my industry",
      "What funding stage am I ready for?",
      "Connect me with mentors"]),
   ("unknown",
     ["I\x27m an investor looking for opportunities",
      "I\x27m an entrepreneur seeking funding",
      "Tell me about this platform",
      "How do I get started?"])]

/-- `get_suggestions` (chatbot.py lines 181-203):
`suggestions.get(user_type, suggestions['unknown'])`; the intent argument is
accepted and ignored, as in the source. -/
def get_suggestions (user_type : String) (_intent : String) : List String :=
  match dict_get suggestions_table user_type with
  | some l => l
  | none => (dict_get suggestions_table "unknown").getD []

/-- The dictionary returned by `process_message`. -/
structure ProcessResult where
  conversation_id : String
  user_type : String
  intent : String
  response : String
  suggestions : List String
deriving DecidableEq

/-- Python truthiness of the optional `conversation_id` argument
(`if not conversation_id`): `None` and `""` are falsy. -/
def truthy : Option String → Bool
  | none => false
  | some c => if c = "" then false else true

/-- `if conversation_id not in self.conversation_history:
self.conversation_history[conversation_id] = []`. -/
def ensure_history (bot : Chatbot) (conversation_id : String) : Chatbot :=
  if (dict_get bot.conversation_history conversation_id).isSome then bot
  else { bot with
         conversation_history := dict_set bot.conversation_history conversation_id [] }

/-- `self.conversation_history[conversation_id].append({...})` with a fresh
timestamp: one clock tick is consumed per `datetime.now()` call. -/
def append_turn (bot : Chatbot) (conversation_id role message : String) : Chatbot :=
  { bot with
    conversation_history :=
      dict_set bot.conversation_history conversation_id
        (((dict_get bot.conversation_history conversation_id).getD [])
          ++ [{ role := role, message := message, timestamp := bot.clock }]),
    clock := bot.clock + 1 }

/-- The profile update of `process_message` (lines 148-152): create the entry
if absent, then overwrite its `'type'` and `'last_intent'` keys. -/
def set_profile (bot : Chatbot) (conversation_id user_type intent : String) : Chatbot :=
  let profile := (dict_get bot.user_profiles conversation_id).getD []
  { bot with
    user_profiles :=
      dict_set bot.user_profiles conversation_id
        (dict_set (dict_set profile "type" user_type) "last_intent" intent) }

/-- Body of `process_message` once the conversation id has been resolved:
append the user turn, classify, persist the profile, generate and append the
bot response, and assemble the result dictionary. -/
def process_message_core (bot : Chatbot) (message conversation_id : String) :
    ProcessResult × Chatbot :=
  let bot1 := ensure_history bot conversation_id
  let bot2 := append_turn bot1 conversation_id "user" message
  let user_type := identify_user_type bot2 message conversation_id
  let intent := identify_intent message user_type
  let bot3 := set_profile bot2 conversation_id user_type intent
  let response := generate_response user_type intent message conversation_id
  let bot4 := append_turn bot3 conversation_id "bot" response
  ({ conversation_id := conversation_id, user_type := user_type, intent := intent,
     response := response, suggestions := get_suggestions user_type intent },
   bot4)

/-- `process_message` (chatbot.py lines 128-170).  A falsy conversation id
(`None` or `""`) is replaced by a fresh `uuid.uuid4()` token, modelled as a
counter-derived string. -/
def process_message (bot : Chatbot) (message : String) (conversation_id : Option String) :
    ProcessResult × Chatbot :=
  if truthy conversation_id then
    process_message_core bot message (conversation_id.getD "")
  else
    process_message_core { bot with uuid_counter := bot.uuid_counter + 1 } message
      ("uuid-" ++ toString bot.uuid_counter)

/-- The error taxonomy of the API surface: the only core-level failure is the
empty/absent message rejected by the `/api/chat` handler. -/
inductive ApiError where
  | invalidInput
deriving DecidableEq

/-- `chat_api` (chatbot.py lines 472-487), the `processMessage` entry point of
the spec: read `message` (default `""`) and `conversation_id` from the
request, reject an empty message with the 400 `InvalidInput` response before
any state is touched, otherwise run `process_message`. -/
def chat_api (bot : Chatbot) (message conversation_id : Option String) :
    Except ApiError ProcessResult × Chatbot :=
  let msg := message.getD ""
  if msg = "" then (Except.error ApiError.invalidInput, bot)
  else
    let step := process_message bot msg conversation_id
    (Except.ok step.1, step.2)

/-- `get_conversation` (chatbot.py lines 489-493):
`self.conversation_history.get(conversation_id, [])`. -/
def get_conversation (bot : Chatbot) (conversation_id : String) : List Turn :=
  (dict_get bot.conversation_history conversation_id).getD []

/-- The stored role of a conversation as later classification reads it:
`user_profiles[conversation_id].get('type', 'unknown')` when the entry
exists. -/
def profileRole (bot : Chatbot) (conversation_id : String) : Option String :=
  (dict_get bot.user_profiles conversation_id).map
    (fun profile => (dict_get profile "type").getD "unknown")

/-- Iterated `process_message` calls on one conversation id, collecting the
returned results in call order. -/
def run_messages (bot : Chatbot) (conversation_id : String) :
    List String → Chatbot × List ProcessResult
  | [] => (bot, [])
  | m :: ms =>
    let step := process_message bot m (some conversation_id)
    let rest := run_messages step.2 conversation_id ms
    (rest.1, step.1 :: rest.2)

/-- Iterated `process_message` calls with arbitrary (message, id) pairs. -/
def run_calls (bot : Chatbot) : List (String × String) → Chatbot
  | [] => bot
  | call :: rest => run_calls (process_message bot call.1 (some call.2)).2 rest

/-- The pure transcript that `run_messages` is proved to append to the
handled conversation's history: a user turn then a bot turn per message. -/
def run_turns (bot : Chatbot) (conversation_id : String) : List String → List Turn
  | [] => []
  | m :: ms =>
    { role := "user", message := m, timestamp := bot.clock } ::
    { role := "bot",
      message := (process_message bot m (some conversation_id)).1.response,
      timestamp := bot.clock + 1 } ::
    run_turns (process_message bot m (some conversation_id)).2 conversation_id ms

/-!
Association-list lemmas and step lemmas about the pieces of
`process_message`.
-/

theorem dict_get_set_self {α : Type} (d : List (String × α)) (k : String) (v : α) :
    dict_get (dict_set d k v) k = some v := by
  induction d with
  | nil => simp [dict_set, dict_get]
  | cons kv rest ih =>
    by_cases h : kv.1 = k
    · simp [dict_set, dict_get, h]
    · simp [dict_set, dict_get, h, ih]

theorem dict_get_set_ne {α : Type} (d : List (String × α)) (k k' : String) (v : α)
    (h : k' ≠ k) : dict_get (dict_set d k v) k' = dict_get d k' := by
  induction d with
  | nil => simp [dict_set, dict_get, Ne.symm h]
  | cons kv rest ih =>
    by_cases hk : kv.1 = k
    · simp [dict_set, dict_get, hk, Ne.symm h]
    · simp [dict_set, dict_get, hk, ih]

theorem ensure_history_profiles (bot : Chatbot) (c : String) :
    (ensure_history bot c).user_profiles = bot.user_profiles := by
  unfold ensure_history; split <;> rfl

theorem ensure_history_clock (bot : Chatbot) (c : String) :
    (ensure_history bot c).clock = bot.clock := by
  unfold ensure_history; split <;> rfl

theorem ensure_history_uuid (bot : Chatbot) (c : String) :
    (ensure_history bot c).uuid_counter = bot.uuid_counter := by
  unfold ensure_history; split <;> rfl

theorem ensure_history_get (bot : Chatbot) (c c' : String) :
    get_conversation (ensure_history bot c) c' = get_conversation bot c' := by
  unfold ensure_history get_conversation
  split
  · rfl
  · rename_i hnone
    by_cases h : c' = c
    · subst h
      rw [dict_get_set_self]
      cases habs : dict_get bot.conversation_history c' with
      | none => rfl
      | some l => rw [habs] at hnone; simp at hnone
    · rw [dict_get_set_ne _ _ _ _ h]

theorem append_turn_profiles (bot : Chatbot) (c ro m : String) :
    (append_turn bot c ro m).user_profiles = bot.user_profiles := rfl

theorem append_turn_clock (bot : Chatbot) (c ro m : String) :
    (append_turn bot c ro m).clock = bot.clock + 1 := rfl

theorem append_turn_get_self (bot : Chatbot) (c ro m : String) :
    get_conversation (append_turn bot c ro m) c
      = get_conversation bot c ++ [{ role := ro, message := m, timestamp := bot.clock }] := by
  unfold append_turn get_conversation
  simp [dict_get_set_self]

theorem append_turn_get_ne (bot : Chatbot) (c c' ro m : String) (h : c' ≠ c) :
    get_conversation (append_turn bot c ro m) c' = get_conversation bot c' := by
  unfold append_turn get_conversation
  simp [dict_get_set_ne _ _ _ _ h]

theorem set_profile_history (bot : Chatbot) (c ut it : String) :
    (set_profile bot c ut it).conversation_history = bot.conversation_history := rfl

theorem set_profile_get_conversation (bot : Chatbot) (c c' ut it : String) :
    get_conversation (set_profile bot c ut it) c' = get_conversation bot c' := rfl

theorem set_profile_clock (bot : Chatbot) (c ut it : String) :
    (set_profile bot c ut it).clock = bot.clock := rfl

theorem set_profile_get_self (bot : Chatbot) (c ut it : String) :
    dict_get (set_profile bot c ut it).user_profiles c
      = some (dict_set (dict_set ((dict_get bot.user_profiles c).getD []) "type" ut)
          "last_intent" it) := by
  unfold set_profile
  simp [dict_get_set_self]

theorem set_profile_get_ne (bot : Chatbot) (c c' ut it : String) (h : c' ≠ c) :
    dict_get (set_profile bot c ut it).user_profiles c' = dict_get bot.user_profiles c' := by
  unfold set_profile
  simp [dict_get_set_ne _ _ _ _ h]

theorem identify_user_type_congr (bot bot' : Chatbot) (m c : String)
    (h : bot.user_profiles = bot'.user_profiles) :
    identify_user_type bot m c = identify_user_type bot' m c := by
  unfold identify_user_type
  rw [h]

theorem process_message_some (bot : Chatbot) (m cid : String) (hcid : cid ≠ "") :
    process_message bot m (some cid) = process_message_core bot m cid := by
  unfold process_message truthy
  simp [hcid]

theorem process_message_core_user_type (bot : Chatbot) (m cid : String) :
    (process_message_core bot m cid).1.user_type = identify_user_type bot m cid := by
  unfold process_message_core
  exact identify_user_type_congr _ _ _ _
    (by rw [append_turn_profiles, ensure_history_profiles])

theorem process_message_core_intent (bot : Chatbot) (m cid : String) :
    (process_message_core bot m cid).1.intent
      = identify_intent m ((process_message_core bot m cid).1.user_type) := rfl

theorem process_message_core_response (bot : Chatbot) (m cid : String) :
    (process_message_core bot m cid).1.response
      = generate_response ((process_message_core bot m cid).1.user_type)
          ((process_message_core bot m cid).1.intent) m cid := rfl

theorem process_message_core_suggestions (bot : Chatbot) (m cid : String) :
    (process_message_core bot m cid).1.suggestions
      = get_suggestions ((process_message_core bot m cid).1.user_type)
          ((process_message_core bot m cid).1.intent) := rfl

theorem process_message_core_hist (bot : Chatbot) (m cid : String) :
    get_conversation (process_message_core bot m cid).2 cid
      = get_conversation bot cid
        ++ [{ role := "user", message := m, timestamp := bot.clock },
            { role := "bot", message := (process_message_core bot m cid).1.response,
              timestamp := bot.clock + 1 }] := by
  conv_lhs => unfold process_message_core
  rw [append_turn_get_self, set_profile_get_conversation, set_profile_clock,
    append_turn_get_self, append_turn_clock, ensure_history_get, ensure_history_clock,
    List.append_assoc]
  rfl

theorem process_message_core_hist_ne (bot : Chatbot) (m cid c : String) (h : c ≠ cid) :
    get_conversation (process_message_core bot m cid).2 c = get_conversation bot c := by
  conv_lhs => unfold process_message_core
  rw [append_turn_get_ne _ _ _ _ _ h, set_profile_get_conversation,
    append_turn_get_ne _ _ _ _ _ h, ensure_history_get]

theorem process_message_core_profiles (bot : Chatbot) (m cid : String) :
    (process_message_core bot m cid).2.user_profiles
      = (set_profile (append_turn (ensure_history bot cid) cid "user" m) cid
          ((process_message_core bot m cid).1.user_type)
          ((process_message_core bot m cid).1.intent)).user_profiles := rfl

theorem process_message_core_profileRole (bot : Chatbot) (m cid : String) :
    profileRole (process_message_core bot m cid).2 cid
      = some ((process_message_core bot m cid).1.user_type) := by
  unfold profileRole
  rw [process_message_core_profiles, set_profile_get_self]
  simp [dict_get_set_ne _ _ _ _ (show ("type" : String) ≠ "last_intent" by decide),
    dict_get_set_self]

theorem process_message_core_profile_ne (bot : Chatbot) (m cid c : String) (h : c ≠ cid) :
    dict_get (process_message_core bot m cid).2.user_profiles c
      = dict_get bot.user_profiles c := by
  conv_lhs => unfold process_message_core
  rw [append_turn_profiles, set_profile_get_ne _ _ _ _ _ h, append_turn_profiles,
    ensure_history_profiles]

theorem process_message_core_cached (bot : Chatbot) (m cid : String)
    (p : List (String × String)) (hp : dict_get bot.user_profiles cid = some p) :
    (process_message_core bot m cid).1.user_type = (dict_get p "type").getD "unknown" := by
  rw [process_message_core_user_type]
  unfold identify_user_type
  rw [hp]

/-!
Lemmas about iterated calls.
-/

theorem run_messages_fst_cons (bot : Chatbot) (cid m : String) (ms : List String) :
    (run_messages bot cid (m :: ms)).1
      = (run_messages (process_message bot m (some cid)).2 cid ms).1 := rfl

theorem run_messages_snd_cons (bot : Chatbot) (cid m : String) (ms : List String) :
    (run_messages bot cid (m :: ms)).2
      = (process_message bot m (some cid)).1
          :: (run_messages (process_message bot m (some cid)).2 cid ms).2 := rfl

theorem run_turns_cons (bot : Chatbot) (cid m : String) (ms : List String) :
    run_turns bot cid (m :: ms)
      = { role := "user", message := m, timestamp := bot.clock }
        :: { role := "bot",
             message := (process_message bot m (some cid)).1.response,
             timestamp := bot.clock + 1 }
        :: run_turns (process_message bot m (some cid)).2 cid ms := rfl

theorem run_hist_append (cid : String) (hcid : cid ≠ "") (ms : List String) :
    ∀ bot : Chatbot,
      get_conversation (run_messages bot cid ms).1 cid
        = get_conversation bot cid ++ run_turns bot cid ms := by
  induction ms with
  | nil => intro bot; simp [run_messages, run_turns]
  | cons m ms ih =>
    intro bot
    rw [run_messages_fst_cons, ih, run_turns_cons,
      process_message_some bot m cid hcid, process_message_core_hist]
    simp

theorem run_hist_ne (cid : String) (hcid : cid ≠ "") (ms : List String) :
    ∀ (bot : Chatbot) (c : String), c ≠ cid →
      get_conversation (run_messages bot cid ms).1 c = get_conversation bot c := by
  induction ms with
  | nil => intro bot c _; rfl
  | cons m ms ih =>
    intro bot c h
    rw [run_messages_fst_cons, ih _ _ h, process_message_some bot m cid hcid,
      process_message_core_hist_ne _ _ _ _ h]

theorem run_turns_length (cid : String) (ms : List String) :
    ∀ bot : Chatbot, (run_turns bot cid ms).length = 2 * ms.length := by
  induction ms with
  | nil => intro bot; rfl
  | cons m ms ih =>
    intro bot
    rw [run_turns_cons]
    simp [ih]
    omega

theorem run_turns_get (cid : String) (ms : List String) :
    ∀ (bot : Chatbot) (k : Nat), k < ms.length →
      ((run_turns bot cid ms)[2 * k]?).map Turn.role = some "user" ∧
      ((run_turns bot cid ms)[2 * k]?).map Turn.message = ms[k]? ∧
      ((run_turns bot cid ms)[2 * k + 1]?).map Turn.role = some "bot" ∧
      ((run_turns bot cid ms)[2 * k + 1]?).map Turn.message
        = ((run_messages bot cid ms).2[k]?).map ProcessResult.response := by
  induction ms with
  | nil => intro bot k hk; simp at hk
  | cons m ms ih =>
    intro bot k hk
    cases k with
    | zero =>
      rw [run_turns_cons, run_messages_snd_cons]
      simp
    | succ k =>
      have hk' : k < ms.length := by
        simp only [List.length_cons] at hk; omega
      have e1 : 2 * (k + 1) = 2 * k + 1 + 1 := by omega
      rw [run_turns_cons, run_messages_snd_cons, e1]
      simp only [List.getElem?_cons_succ]
      exact ih _ k hk'

theorem run_messages_sticky (cid r : String) (hcid : cid ≠ "") (ms : List String) :
    ∀ bot : Chatbot, profileRole bot cid = some r →
      ∀ k, k < ms.length →
        ((run_messages bot cid ms).2[k]?).map ProcessResult.user_type = some r ∧
        ((run_messages bot cid ms).2[k]?).map ProcessResult.intent
          = (ms[k]?).map (fun m => identify_intent m r) := by
  induction ms with
  | nil => intro bot _ k hk; simp at hk
  | cons m ms ih =>
    intro bot hr k hk
    cases hp : dict_get bot.user_profiles cid with
    | none => rw [profileRole, hp] at hr; simp at hr
    | some p =>
      have hrole : (dict_get p "type").getD "unknown" = r := by
        rw [profileRole, hp] at hr; simpa using hr
      have hut : (process_message_core bot m cid).1.user_type = r := by
        rw [process_message_core_cached bot m cid p hp, hrole]
      cases k with
      | zero =>
        rw [run_messages_snd_cons]
        simp only [List.getElem?_cons_zero, Option.map_some']
        rw [process_message_some bot m cid hcid]
        constructor
        · rw [hut]
        · rw [process_message_core_intent, hut]
      | succ k =>
        rw [run_messages_snd_cons]
        simp only [List.getElem?_cons_succ]
        have hnext : profileRole (process_message bot m (some cid)).2 cid = some r := by
          rw [process_message_some bot m cid hcid, process_message_core_profileRole, hut]
        exact ih _ hnext k (by simp only [List.length_cons] at hk; omega)

theorem run_calls_profileRole (cid r : String) (calls : List (String × String)) :
    ∀ bot : Chatbot, (∀ p ∈ calls, p.2 ≠ "") → profileRole bot cid = some r →
      profileRole (run_calls bot calls) cid = some r := by
  induction calls with
  | nil => intro bot _ hr; exact hr
  | cons call rest ih =>
    intro bot hne hr
    have hcall : call.2 ≠ "" := hne call (by simp)
    have hstep : profileRole (process_message bot call.1 (some call.2)).2 cid = some r := by
      rw [process_message_some bot call.1 call.2 hcall]
      by_cases hc : cid = call.2
      · rw [← hc, process_message_core_profileRole]
        cases hp : dict_get bot.user_profiles cid with
        | none => rw [profileRole, hp] at hr; simp at hr
        | some p =>
          have hrole : (dict_get p "type").getD "unknown" = r := by
            rw [profileRole, hp] at hr; simpa using hr
          rw [process_message_core_cached bot call.1 cid p hp, hrole]
      · unfold profileRole
        rw [process_message_core_profile_ne bot call.1 call.2 cid hc]
        exact hr
    exact ih _ (fun p hp => hne p (List.mem_cons_of_mem _ hp)) hstep

/-!
Spec-side view of the Response Engine and the intent scan.
-/

theorem find_intent_nil (ml : List Char) : find_intent [] ml = none := rfl

theorem find_intent_append (a b : List (String × List (List String))) (ml : List Char) :
    find_intent (a ++ b) ml
      = match find_intent a ml with
        | some intent => some intent
        | none => find_intent b ml := by
  induction a with
  | nil => simp [find_intent]
  | cons g rest ih =>
    by_cases h : (g.2.any (fun pat => re_search pat ml)) = true
    · simp [find_intent, h]
    · simp [find_intent, h, ih]

/-- Static response-text table keyed by role then intent: the spec's view of
the generator table, with the generators replaced by the constant texts they
return. -/
def response_texts : List (String × List (String × String)) :=
  [("investor",
     [("seeking_startups", startup_opportunities_text),
      ("portfolio_inquiry", portfolio_text),
      ("market_analysis", market_analysis_text)]),
   ("entrepreneur",
     [("seeking_funding", funding_opportunities_text),
      ("pitch_help", pitch_help_text),
      ("business_advice", business_advice_text)]),
   ("general",
     [("platform_info", platform_info_text),
      ("registration", registration_body_text),
      ("meeting_scheduling", meeting_scheduling_text)])]

/-- The spec's description of the Response Engine (section 4.5): look up a
text keyed by (role, intent); if absent look up ("general", intent); if still
absent fall back to the role-aware default greeting.  A function of role and
intent only — no message, no conversation id. -/
def responseOf (role intent : String) : String :=
  match (dict_get response_texts role).bind (fun group => dict_get group intent) with
  | some text => text
  | none =>
    match (dict_get response_texts "general").bind (fun group => dict_get group intent) with
    | some text => text
    | none => ((dict_get default_greetings role).getD "Hello") ++ default_menu_text

theorem generate_response_eq_responseOf (u i m c : String) :
    generate_response u i m c = responseOf u i := by
  unfold generate_response responseOf responses_lookup
  simp [responses, response_texts, dict_get]
  split_ifs <;>
    try simp_all [get_startup_opportunities_response, get_portfolio_response,
      get_market_analysis_response, get_funding_opportunities_response,
      get_pitch_help_response, get_business_advice_response,
      get_platform_info_response, get_registration_response,
      get_meeting_scheduling_response, get_default_response,
      default_greetings, dict_get]
  all_goals split_ifs <;>
    simp_all [get_startup_opportunities_response, get_portfolio_response,
      get_market_analysis_response, get_funding_opportunities_response,
      get_pitch_help_response, get_business_advice_response,
      get_platform_info_response, get_registration_response,
      get_meeting_scheduling_response, get_default_response,
      default_greetings, dict_get]

/-- Trichotomy of the role scorer's comparison ladder. -/
theorem score_role_spec (i e : Nat) :
    ((if i > e then "investor" else if e > i then "entrepreneur" else ("unknown" : String))
        = "investor" ↔ e < i) ∧
    ((if i > e then "investor" else if e > i then "entrepreneur" else ("unknown" : String))
        = "entrepreneur" ↔ i < e) ∧
    ((if i > e then "investor" else if e > i then "entrepreneur" else ("unknown" : String))
        = "unknown" ↔ i = e) := by
  rcases Nat.lt_trichotomy i e with h | h | h
  · rw [if_neg (by omega), if_pos h]
    exact ⟨iff_of_false (by decide) (by omega), iff_of_true rfl h,
      iff_of_false (by decide) (by omega)⟩
  · rw [if_neg (by omega), if_neg (by omega)]
    exact ⟨iff_of_false (by decide) (by omega), iff_of_false (by decide) (by omega),
      iff_of_true rfl h⟩
  · rw [if_pos h]
    exact ⟨iff_of_true rfl h, iff_of_false (by decide) (by omega),
      iff_of_false (by decide) (by omega)⟩

/-!
Claim theorems.
-/

/-- State reached by one greeting turn on conversation `"c1"`: its profile
stores the role `unknown`. -/
def cached_unknown_state : Chatbot :=
  (process_message initial_chatbot "hello" (some "c1")).2

/-- A state whose conversation `"c3"` already has the role `investor`
recorded in its profile. -/
def sticky_investor_state : Chatbot :=
  { conversation_history := [], user_profiles := [("c3", [("type", "investor")])],
    clock := 0, uuid_counter := 0 }

/-- The fourth testable-property message of the spec. -/
def startup_investment_message : String :=
  "I\x27m looking for startup investment opportunities"

/-- C1: an empty (or absent) message is rejected by the `processMessage`
entry point (`chat_api`) with the `InvalidInput` error before anything runs,
so the returned store is exactly the store passed in — no session created,
no turn appended, no profile written — for every starting state and every
supplied-or-absent conversation id. -/
theorem chat_api_empty_message_rejected (bot : Chatbot) (cido : Option String) :
    chat_api bot (some "") cido = (Except.error ApiError.invalidInput, bot) ∧
    chat_api bot none cido = (Except.error ApiError.invalidInput, bot) :=
  ⟨rfl, rfl⟩

/-- C2: counterexample — after a first turn has stored the role `unknown`
for conversation `"c1"`, a later investor-loaded message is NOT rescored:
`identify_user_type` returns the cached `unknown`, although scoring the very
same message with no stored profile yields `investor`.  This refutes the
claim that a stored `unknown` role triggers rescoring. -/
theorem identify_user_type_cached_unknown_cex :
    profileRole cached_unknown_state "c1" = some "unknown" ∧
    identify_user_type cached_unknown_state "invest capital" "c1" = "unknown" ∧
    identify_user_type initial_chatbot "invest capital" "c1" = "investor" := by decide

/-- C2 (amended): `identify_user_type` returns the stored profile value
(key `"type"`, default `unknown`) whenever ANY profile entry exists for the
conversation id — even when that stored role is `unknown`; only a completely
absent profile entry causes the message to be lower-cased and rescored. -/
theorem identify_user_type_cached (bot : Chatbot) (m cid : String)
    (p : List (String × String)) (hp : dict_get bot.user_profiles cid = some p) :
    identify_user_type bot m cid = (dict_get p "type").getD "unknown" := by
  unfold identify_user_type
  rw [hp]

/-- C2: witness for the amended theorem at a concrete reachable state. -/
theorem identify_user_type_cached_witness :
    identify_user_type cached_unknown_state "invest capital now" "c1"
      = (dict_get [("type", "unknown"), ("last_intent", "general_inquiry")] "type").getD
          "unknown" :=
  identify_user_type_cached cached_unknown_state "invest capital now" "c1"
    [("type", "unknown"), ("last_intent", "general_inquiry")] (by decide)

/-- C3: once a session's role is `investor` or `entrepreneur`, every
`process_message` call of a whole subsequent message sequence on that id
reports exactly that role, whatever the messages say, while each call's
intent is recomputed from its own message under that role. -/
theorem process_message_sticky_role (bot : Chatbot) (cid r : String) (ms : List String)
    (hcid : cid ≠ "") (hr : profileRole bot cid = some r)
    (_hre : r = "investor" ∨ r = "entrepreneur") :
    ∀ k, k < ms.length →
      ((run_messages bot cid ms).2[k]?).map ProcessResult.user_type = some r ∧
      ((run_messages bot cid ms).2[k]?).map ProcessResult.intent
        = (ms[k]?).map (fun m => identify_intent m r) :=
  run_messages_sticky cid r hcid ms bot hr

/-- C3: witness — with `investor` stored, an entrepreneur-sounding message
still reports `investor`, and its intent is computed under that role. -/
theorem process_message_sticky_role_witness :
    ((run_messages sticky_investor_state "c3" ["i need funding for my startup"]).2[0]?).map
        ProcessResult.user_type = some "investor" ∧
    ((run_messages sticky_investor_state "c3" ["i need funding for my startup"]).2[0]?).map
        ProcessResult.intent
      = ((["i need funding for my startup"] : List String)[0]?).map
          (fun m => identify_intent m "investor") :=
  process_message_sticky_role sticky_investor_state "c3" "investor"
    ["i need funding for my startup"] (by decide) (by decide) (Or.inl rfl) 0 (by decide)

/-- C4: with no stored profile, `identify_user_type` returns `investor` iff
the investor-keyword count on the lower-cased message strictly exceeds the
entrepreneur-keyword count, `entrepreneur` iff the converse, `unknown` iff
they tie (including 0-0), and always one of the three; the classifier is a
pure read of the state. -/
theorem identify_user_type_fresh_scoring (bot : Chatbot) (m cid : String)
    (h : dict_get bot.user_profiles cid = none) :
    (identify_user_type bot m cid = "investor"
       ↔ entrepreneur_keywords.countP (fun kw => contains_kw (lower_chars m) kw)
           < investor_keywords.countP (fun kw => contains_kw (lower_chars m) kw)) ∧
    (identify_user_type bot m cid = "entrepreneur"
       ↔ investor_keywords.countP (fun kw => contains_kw (lower_chars m) kw)
           < entrepreneur_keywords.countP (fun kw => contains_kw (lower_chars m) kw)) ∧
    (identify_user_type bot m cid = "unknown"
       ↔ investor_keywords.countP (fun kw => contains_kw (lower_chars m) kw)
           = entrepreneur_keywords.countP (fun kw => contains_kw (lower_chars m) kw)) ∧
    (identify_user_type bot m cid = "investor" ∨ identify_user_type bot m cid = "entrepreneur"
       ∨ identify_user_type bot m cid = "unknown") := by
  have hval : identify_user_type bot m cid
      = (if investor_keywords.countP (fun kw => contains_kw (lower_chars m) kw)
            > entrepreneur_keywords.countP (fun kw => contains_kw (lower_chars m) kw)
         then "investor"
         else if entrepreneur_keywords.countP (fun kw => contains_kw (lower_chars m) kw)
            > investor_keywords.countP (fun kw => contains_kw (lower_chars m) kw)
         then "entrepreneur" else "unknown") := by
    unfold identify_user_type
    rw [h]
  obtain ⟨c1, c2, c3⟩ := score_role_spec
    (investor_keywords.countP (fun kw => contains_kw (lower_chars m) kw))
    (entrepreneur_keywords.countP (fun kw => contains_kw (lower_chars m) kw))
  rw [hval]
  refine ⟨c1, c2, c3, ?_⟩
  rcases Nat.lt_trichotomy
    (investor_keywords.countP (fun kw => contains_kw (lower_chars m) kw))
    (entrepreneur_keywords.countP (fun kw => contains_kw (lower_chars m) kw)) with hh | hh | hh
  · exact Or.inr (Or.inl (c2.mpr hh))
  · exact Or.inr (Or.inr (c3.mpr hh))
  · exact Or.inl (c1.mpr hh)

/-- C4: witness at a concrete fresh state and investor-loaded message. -/
theorem identify_user_type_fresh_scoring_witness :
    identify_user_type initial_chatbot "i want to invest" "w4" = "investor" :=
  (identify_user_type_fresh_scoring initial_chatbot "i want to invest" "w4" rfl).1.mpr
    (by decide)

/-- C5: `identify_intent` equals the first-match scan of the role's pattern
groups (in registration order) followed by the `general` groups, defaulting
to the sentinel `general_inquiry`; a role with no registered group (such as
`unknown`) contributes the empty prefix. -/
theorem identify_intent_first_match_spec (m r : String) :
    identify_intent m r
      = (find_intent (((dict_get intent_patterns r).getD [])
            ++ ((dict_get intent_patterns "general").getD [])) (lower_chars m)).getD
          "general_inquiry" := by
  simp only [identify_intent]
  rw [find_intent_append]
  cases hg : dict_get intent_patterns r with
  | none =>
    simp only [Option.getD_none, find_intent_nil]
    cases hfg : find_intent ((dict_get intent_patterns "general").getD []) (lower_chars m) with
    | none => rfl
    | some v => rfl
  | some groups =>
    simp only [Option.getD_some]
    cases hf : find_intent groups (lower_chars m) with
    | some intent => rfl
    | none =>
      cases hfg : find_intent ((dict_get intent_patterns "general").getD []) (lower_chars m) with
      | none => rfl
      | some v => rfl

/-- C6: counterexample — from a fresh session, the message
"I'm looking for startup investment opportunities" does NOT resolve to
(`investor`, `seeking_startups`): the keyword scores tie 1-1. -/
theorem startup_investment_message_cex :
    ¬ ((process_message initial_chatbot startup_investment_message (some "c6")).1.user_type
          = "investor"
        ∧ (process_message initial_chatbot startup_investment_message (some "c6")).1.intent
          = "seeking_startups") := by decide

/-- C6 (amended): from a fresh session that message resolves role `unknown`
(`invest` and `startup` tie 1-1) and hence intent `general_inquiry` (the
unknown role only scans the general groups, none of which match); the
intent would have been `seeking_startups` had the role been `investor`. -/
theorem startup_investment_message_amended :
    (process_message initial_chatbot startup_investment_message (some "c6")).1.user_type
        = "unknown" ∧
    (process_message initial_chatbot startup_investment_message (some "c6")).1.intent
        = "general_inquiry" ∧
    identify_intent startup_investment_message "investor" = "seeking_startups" := by decide

/-- C7: counterexample — the unknown-role suggestion list has 4 entries,
not 3 as claimed. -/
theorem get_suggestions_unknown_count_cex :
    (get_suggestions "unknown" "general_inquiry").length = 4 ∧
    ¬ (get_suggestions "unknown" "general_inquiry").length = 3 := by decide

/-- C7 (amended): suggestions come from the static role-keyed table — 4
hard-coded prompts for `investor`, 4 for `entrepreneur`, and 4 (not 3)
unknown-role prompts returned as the default for any other role — and the
suggestions attached to every `process_message` result are exactly this
table's row for the resolved role. -/
theorem get_suggestions_spec (r i : String) :
    (get_suggestions "investor" i).length = 4 ∧
    (get_suggestions "entrepreneur" i).length = 4 ∧
    (get_suggestions "unknown" i).length = 4 ∧
    (r ≠ "investor" → r ≠ "entrepreneur" →
      get_suggestions r i = get_suggestions "unknown" i) ∧
    (∀ (bot : Chatbot) (m : String) (cido : Option String),
      (process_message bot m cido).1.suggestions
        = get_suggestions (process_message bot m cido).1.user_type
            (process_message bot m cido).1.intent) := by
  refine ⟨?_, ?_, ?_, ?_, ?_⟩
  · simp [get_suggestions, suggestions_table, dict_get]
  · simp [get_suggestions, suggestions_table, dict_get]
  · simp [get_suggestions, suggestions_table, dict_get]
  · intro h1 h2
    by_cases h3 : ("unknown" : String) = r
    · rw [← h3]
    · simp [get_suggestions, suggestions_table, dict_get, Ne.symm h1, Ne.symm h2, h3]
  · intro bot msg cido
    unfold process_message
    split <;> rfl

/-- C7: witness — an unrecognised role falls back to the unknown row. -/
theorem get_suggestions_spec_witness :
    get_suggestions "someone" "greeting" = get_suggestions "unknown" "greeting" :=
  (get_suggestions_spec "someone" "greeting").2.2.2.1 (by decide) (by decide)

/-- C8: `generate_response` agrees with the message-free dispatch table
`responseOf` — generator keyed by (role, intent) first, the ("general",
intent) row next, the role-aware default greeting last — and therefore two
runs with equal role and intent return identical text whatever their
messages and conversation ids. -/
theorem generate_response_role_intent_only (r i m1 c1 m2 c2 : String) :
    generate_response r i m1 c1 = responseOf r i ∧
    generate_response r i m1 c1 = generate_response r i m2 c2 := by
  refine ⟨generate_response_eq_responseOf r i m1 c1, ?_⟩
  rw [generate_response_eq_responseOf r i m1 c1, generate_response_eq_responseOf r i m2 c2]

/-- C9: after N `process_message` calls on one conversation id starting from
an empty history, reading that history yields exactly 2N turns alternating
user/bot in call order, the user turn of call k carrying the k-th inbound
message and the bot turn carrying that call's returned response; other ids'
histories are untouched, each single call only appends its two turns, and an
id never processed reads back as the empty sequence. -/
theorem process_message_history_roundtrip (bot : Chatbot) (cid : String) (ms : List String)
    (hcid : cid ≠ "") (h0 : get_conversation bot cid = []) :
    (get_conversation (run_messages bot cid ms).1 cid).length = 2 * ms.length ∧
    (∀ k, k < ms.length →
      ((get_conversation (run_messages bot cid ms).1 cid)[2 * k]?).map Turn.role
          = some "user" ∧
      ((get_conversation (run_messages bot cid ms).1 cid)[2 * k]?).map Turn.message
          = ms[k]? ∧
      ((get_conversation (run_messages bot cid ms).1 cid)[2 * k + 1]?).map Turn.role
          = some "bot" ∧
      ((get_conversation (run_messages bot cid ms).1 cid)[2 * k + 1]?).map Turn.message
          = ((run_messages bot cid ms).2[k]?).map ProcessResult.response) ∧
    (∀ c, c ≠ cid → get_conversation (run_messages bot cid ms).1 c = get_conversation bot c) ∧
    (∀ (bot2 : Chatbot) (m : String),
      get_conversation (process_message bot2 m (some cid)).2 cid
        = get_conversation bot2 cid
          ++ [{ role := "user", message := m, timestamp := bot2.clock },
              { role := "bot", message := (process_message bot2 m (some cid)).1.response,
                timestamp := bot2.clock + 1 }]) ∧
    (∀ c, get_conversation initial_chatbot c = []) := by
  have hrw : get_conversation (run_messages bot cid ms).1 cid = run_turns bot cid ms := by
    rw [run_hist_append cid hcid ms bot, h0, List.nil_append]
  refine ⟨?_, ?_, ?_, ?_, ?_⟩
  · rw [hrw, run_turns_length]
  · intro k hk
    rw [hrw]
    exact run_turns_get cid ms bot k hk
  · intro c hc
    exact run_hist_ne cid hcid ms bot c hc
  · intro bot2 m
    rw [process_message_some bot2 m cid hcid]
    exact process_message_core_hist bot2 m cid
  · intro c
    rfl

/-- C9: witness at a concrete one-message run. -/
theorem process_message_history_roundtrip_witness :
    (get_conversation (run_messages initial_chatbot "c9" ["hello"]).1 "c9").length
      = 2 * (["hello"] : List String).length :=
  (process_message_history_roundtrip initial_chatbot "c9" ["hello"] (by decide) rfl).1

/-- C10: the first `process_message` call for an id writes the computed role
(whatever it is, `unknown` included) into the profile, and every later call
for that id — after any interleaved calls on explicitly supplied ids —
reports exactly the role the first call reported: a conversation's role is
permanently fixed by its first message. -/
theorem role_fixed_by_first_message (bot : Chatbot) (cid m m2 : String)
    (calls : List (String × String)) (hcid : cid ≠ "")
    (_hnew : dict_get bot.user_profiles cid = none)
    (hcalls : ∀ p ∈ calls, p.2 ≠ "") :
    (process_message (run_calls (process_message bot m (some cid)).2 calls) m2
        (some cid)).1.user_type
      = (process_message bot m (some cid)).1.user_type := by
  rw [process_message_some bot m cid hcid]
  have h1 : profileRole (process_message_core bot m cid).2 cid
      = some ((process_message_core bot m cid).1.user_type) :=
    process_message_core_profileRole bot m cid
  have h2 : profileRole (run_calls (process_message_core bot m cid).2 calls) cid
      = some ((process_message_core bot m cid).1.user_type) :=
    run_calls_profileRole cid _ calls _ hcalls h1
  rw [process_message_some _ m2 cid hcid]
  cases hp : dict_get (run_calls (process_message_core bot m cid).2 calls).user_profiles cid with
  | none => rw [profileRole, hp] at h2; simp at h2
  | some p =>
    have hty : (dict_get p "type").getD "unknown"
        = (process_message_core bot m cid).1.user_type := by
      rw [profileRole, hp] at h2; simpa using h2
    rw [process_message_core_cached _ m2 cid p hp, hty]

/-- C10: witness — a first `unknown`-scoring message pins the role to
`unknown` even across an intervening strongly investor-scoring call, and a
final entrepreneur-scoring message still reports the first call's role. -/
theorem role_fixed_by_first_message_witness :
    (process_message (run_calls (process_message initial_chatbot "hello there" (some "cA")).2
        [("i want to invest capital", "cA")]) "i need funding for my startup"
        (some "cA")).1.user_type
      = (process_message initial_chatbot "hello there" (some "cA")).1.user_type :=
  role_fixed_by_first_message initial_chatbot "cA" "hello there"
    "i need funding for my startup" [("i want to invest capital", "cA")]
    (by decide) rfl (by decide)

/-- The remaining testable properties of spec section 8 that involve the
classifiers, checked at their concrete inputs. -/
theorem spec_section8_examples :
    identify_user_type initial_chatbot "I need funding for my startup" "x" = "entrepreneur" ∧
    identify_intent "I need funding for my startup" "entrepreneur" = "seeking_funding" ∧
    identify_user_type initial_chatbot "how does the platform work" "x" = "unknown" ∧
    identify_intent "how does the platform work" "unknown" = "platform_info" := by decide
